import Mathlib

/-!
Verification development for the QA2 repository (RAG question answering over
a Qdrant index of Q&A pairs).

Shallow embedding conventions:
* `rag_config` constants are transcribed from `src/rag_config.py`.
* Scores and similarities are rationals (`ℚ`); Python's `round(x, 4)` is
  modelled by `round4`.
* The Qdrant vector store is an oracle `vectorSearch : String → Nat → List Scored`
  returning `(document, score)` candidates for a query and a candidate count.
* The OpenAI generative client is an oracle `genAttempt : Nat → Except OpenAIErr String`
  giving the outcome of the n-th call attempt; a streaming generation is an
  oracle `List (Except OpenAIErr String)`: each element is the production of one
  fragment, which either yields a chunk or raises.
* Python exceptions are modelled by `Except`; a caught exception `e`
  contributes `str(e)` via `OpenAIErr.text`.
-/

namespace QA2

/-- Constants from `src/rag_config.py` (retrieval, streaming, display and
indexing settings used by the claims). -/
def TOP_K_RESULTS : Nat := 8

def SIMILARITY_THRESHOLD : ℚ := 0

def ENABLE_STREAMING : Bool := true

def SHOW_SOURCE_PAIRS : Bool := true

def INDEX_ALL_PAIRS : Bool := true

def EXCLUDE_IRRELEVANT : Bool := true

/-- Constant `MAX_RETRIES` from `src/config.py` (used by `OpenAIClient._make_request`). -/
def MAX_RETRIES : Nat := 3

/-- Metadata of one indexed document, as stored by `rag_indexer.prepare_documents`
and read back by `rag_retriever.search_similar_pairs` via `doc.metadata.get`. -/
structure Doc where
  question : String
  answer : String
  direction : String
  question_type : String
  keywords : String
  id : Option Nat
  filename : String
  call_date : String
  call_time : String
deriving DecidableEq, Repr

/-- One candidate returned by `vectorstore.similarity_search_with_score`:
a document together with the native score reported by the store. -/
structure Scored where
  doc : Doc
  score : ℚ
deriving DecidableEq, Repr

/-- Python `round(x, 4)`: similarity rounded to 4 decimal places.
(`round` on `ℚ` rounds half away from the lower integer; the claims do not
depend on tie behaviour.) -/
def round4 (x : ℚ) : ℚ := ((round (x * 10000) : ℤ) : ℚ) / 10000

/-- The result dictionary built for one surviving candidate in
`RAGRetriever.search_similar_pairs` (nested `metadata` flattened into fields). -/
structure Pair where
  question : String
  answer : String
  direction : String
  question_type : String
  keywords : String
  similarity_score : ℚ
  id : Option Nat
  filename : String
  call_date : String
  call_time : String
deriving DecidableEq, Repr

/-- Construction of the result dictionary from a candidate document and its
(unrounded) similarity, as in `search_similar_pairs` lines 91-104. -/
def mkResult (d : Doc) (similarity : ℚ) : Pair :=
  { question := d.question
    answer := d.answer
    direction := d.direction
    question_type := d.question_type
    keywords := d.keywords
    similarity_score := round4 similarity
    id := d.id
    filename := d.filename
    call_date := d.call_date
    call_time := d.call_time }

/-- Python `k = k or rag_config.TOP_K_RESULTS`: `or` replaces a falsy `k`
(`None` or `0`) by the configured default. -/
def effectiveK : Option Nat → Nat
  | none => TOP_K_RESULTS
  | some 0 => TOP_K_RESULTS
  | some (n + 1) => n + 1

/-- The filtering loop of `search_similar_pairs` (lines 84-105): for each
`(doc, score)` candidate in order, compute `similarity = 1 - score`, keep the
candidate iff `similarity >= SIMILARITY_THRESHOLD`, and append the formatted
result. -/
def filterFormat : List Scored → List Pair
  | [] => []
  | r :: rest =>
    if SIMILARITY_THRESHOLD ≤ 1 - r.score then
      mkResult r.doc (1 - r.score) :: filterFormat rest
    else
      filterFormat rest

/-- Model of `RAGRetriever.search_similar_pairs(query, k)`: resolve the candidate count,
query the vector store, filter by similarity threshold and format results. -/
def searchSimilarPairs (vectorSearch : String → Nat → List Scored)
    (query : String) (k : Option Nat) : List Pair :=
  filterFormat (vectorSearch query (effectiveK k))

/-- Two-digit rendering of a value below 100 (for the fractional part of a
percentage). -/
def pad2 (n : Nat) : String :=
  if n < 10 then "0" ++ toString n else toString n

/-- Python `f string` formatting `x:.2%`: the value times 100, with two decimal
places and a percent sign. -/
def formatPercent (x : ℚ) : String :=
  let n : Int := round (x * 10000)
  toString (n / 100) ++ "." ++ pad2 (n.natAbs % 100) ++ "%"

/-- One numbered context block of `RAGRetriever.format_context` (lines 118-122). -/
def blockOf (i : Nat) (p : Pair) : String :=
  "--- Пара #" ++ toString i ++ " (релевантность: " ++
    formatPercent p.similarity_score ++ ") ---\n" ++
    "Вопрос: " ++ p.question ++ "\n" ++
    "Ответ: " ++ p.answer ++ "\n"

/-- The enumeration loop of `format_context`: one block per pair, numbering
starting at `i`. -/
def contextParts (i : Nat) : List Pair → List String
  | [] => []
  | p :: rest => blockOf i p :: contextParts (i + 1) rest

/-- The fixed sentinel returned by `format_context` on empty evidence. -/
def NO_INFO_CONTEXT : String := "Релевантной информации не найдено."

/-- Model of `RAGRetriever.format_context(pairs)` (lines 111-124). -/
def formatContext (pairs : List Pair) : String :=
  if pairs = [] then NO_INFO_CONTEXT
  else String.intercalate "\n" (contextParts 1 pairs)

/-- Exception classes that can surface from the OpenAI client, as named in
`src/api_client.py` line 1; `other` stands for any further exception.
`text` is Python `str(e)`. -/
inductive OpenAIErr where
  | rateLimit (msg : String)
  | connection (msg : String)
  | timeout (msg : String)
  | authentication (msg : String)
  | api (msg : String)
  | other (msg : String)
deriving DecidableEq, Repr

/-- Python `str(e)` for a modelled exception. -/
def OpenAIErr.text : OpenAIErr → String
  | .rateLimit m => m
  | .connection m => m
  | .timeout m => m
  | .authentication m => m
  | .api m => m
  | .other m => m

/-- The fixed sentinel answer of `answer_question` when no evidence is found
(`rag_retriever.py` line 214). -/
def NO_INFO_ANSWER : String :=
  "К сожалению, в базе знаний не найдено релевантной информации для ответа на ваш вопрос."

/-- The user-facing answer built in the `except` branch of `answer_question`
(line 245): a polite prefix followed by `str(e)` verbatim. -/
def politeMsg (e : OpenAIErr) : String :=
  "Произошла ошибка при обработке запроса: " ++ e.text

instance {ε α : Type} [DecidableEq ε] [DecidableEq α] : DecidableEq (Except ε α) := fun a b =>
  match a, b with
  | .ok x, .ok y => if h : x = y then .isTrue (by rw [h]) else .isFalse (by simp [h])
  | .error x, .error y => if h : x = y then .isTrue (by rw [h]) else .isFalse (by simp [h])
  | .ok _, .error _ => .isFalse (by simp)
  | .error _, .ok _ => .isFalse (by simp)

/-- The dictionary returned by `RAGRetriever.answer_question`. Optional fields
model keys absent from some branches (`answer` is absent in the streaming
success branch, `answer_stream` present only there, `streaming` and `error`
only where set). -/
structure AnswerResult where
  success : Bool
  answer : Option String
  answer_stream : Option (List (Except OpenAIErr String))
  source_pairs : List Pair
  query : String
  streaming : Option Bool
  error : Option String
deriving DecidableEq, Repr

/-- Model of `RAGRetriever.answer_question(query, use_streaming)` (lines 194-249),
parameterised by the outcome of `search_similar_pairs` and by the generative
oracles. The second component counts the OpenAI chat-completion invocations
performed during the call: the non-streaming branch performs exactly one
(`generate_answer` issues a single request, with no retry); the streaming
branch performs none at this point, since the Python generator returned by
`generate_answer_stream` runs only when consumed. -/
def answerQuestion (searchRes : Except OpenAIErr (List Pair))
    (genAttempt : Nat → Except OpenAIErr String)
    (genStream : List (Except OpenAIErr String))
    (useStreaming : Option Bool) (query : String) : AnswerResult × Nat :=
  let streaming := useStreaming.getD ENABLE_STREAMING
  match searchRes with
  | .error e =>
    ({ success := false, answer := some (politeMsg e), answer_stream := none,
       source_pairs := [], query := query, streaming := none,
       error := some e.text }, 0)
  | .ok [] =>
    ({ success := false, answer := some NO_INFO_ANSWER, answer_stream := none,
       source_pairs := [], query := query, streaming := none, error := none }, 0)
  | .ok (p :: ps) =>
    if streaming then
      ({ success := true, answer := none, answer_stream := some genStream,
         source_pairs := if SHOW_SOURCE_PAIRS then p :: ps else [],
         query := query, streaming := some true, error := none }, 0)
    else
      match genAttempt 0 with
      | .ok a =>
        ({ success := true, answer := some a, answer_stream := none,
           source_pairs := if SHOW_SOURCE_PAIRS then p :: ps else [],
           query := query, streaming := some false, error := none }, 1)
      | .error e =>
        ({ success := false, answer := some (politeMsg e), answer_stream := none,
           source_pairs := [], query := query, streaming := none,
           error := some e.text }, 1)

/-- Composition of `answer_question` with the search step inlined: the evidence comes from
`search_similar_pairs(query)` with the default `k`. -/
def answerQuestionFull (vectorSearch : String → Nat → List Scored)
    (genAttempt : Nat → Except OpenAIErr String)
    (genStream : List (Except OpenAIErr String))
    (useStreaming : Option Bool) (query : String) : AnswerResult × Nat :=
  answerQuestion (Except.ok (searchSimilarPairs vectorSearch query none))
    genAttempt genStream useStreaming query

/-- Server-sent events emitted by the `/api/ask_stream` endpoint
(`rag_app.py`, the `generate` function, lines 115-134). -/
inductive SSEEvent where
  | sources (ps : List Pair)
  | answerStart
  | answerChunk (s : String)
  | answerEnd
  | errorEv (msg : String)
  | done
deriving DecidableEq, Repr

/-- The chunk-forwarding loop of `generate` (lines 127-134): each successful
fragment production yields an `answer_chunk` event; when the whole stream is
consumed, `answer_end` and the final `DONE` sentinel follow. A fragment
production that raises propagates out of the generator: no further event —
in particular neither an error event nor the sentinel — is emitted. -/
def streamChunkEvents : List (Except OpenAIErr String) → List SSEEvent
  | [] => [SSEEvent.answerEnd, SSEEvent.done]
  | .ok c :: rest => SSEEvent.answerChunk c :: streamChunkEvents rest
  | .error _ :: _ => []

/-- The full event sequence produced by `generate` in `ask_question_stream`
for an `answer_question` result: an optional `sources` event when
`source_pairs` is non-empty, then either the chunk sequence (success) or a
single `error` event carrying the result's answer text followed by the
sentinel (failure). -/
def sseGenerate (r : AnswerResult) : List SSEEvent :=
  (if r.source_pairs = [] then [] else [SSEEvent.sources r.source_pairs]) ++
    (if r.success then
      SSEEvent.answerStart :: streamChunkEvents (r.answer_stream.getD [])
    else
      [SSEEvent.errorEv (r.answer.getD "Ошибка"), SSEEvent.done])

/-- One row of the `qa_pairs` table as seen by
`QAIndexer.load_qa_pairs_from_db`; nullable SQL columns are `Option`. -/
structure DbRow where
  id : Nat
  question : String
  answer : String
  direction : Option String
  question_type : Option String
  keywords : Option String
  filename : String
  dialog_id : Option Nat
  call_direction : Option String
  operator_phone : Option String
  client_phone : Option String
  call_date : Option String
  call_time : Option String
  is_irrelevant : Option Int
  is_audited : Option Int
deriving DecidableEq, Repr

/-- The WHERE clause built in `load_qa_pairs_from_db` (lines 62-69): starting
from `1=1`, `EXCLUDE_IRRELEVANT` appends
`AND (is_irrelevant = 0 OR is_irrelevant IS NULL)` and a false
`INDEX_ALL_PAIRS` appends `AND is_audited = 1` (a NULL `is_audited` fails the
SQL comparison). -/
def sqlWhere (excludeIrrelevant indexAll : Bool) (r : DbRow) : Bool :=
  (if excludeIrrelevant then r.is_irrelevant == some 0 || r.is_irrelevant == none
   else true) &&
  (if indexAll then true else r.is_audited == some 1)

/-- The set of rows the indexer's SELECT returns, in table order:
`load_qa_pairs_from_db` then converts each selected row to a dictionary
without dropping or adding rows. -/
def selectRows (excludeIrrelevant indexAll : Bool) (db : List DbRow) : List DbRow :=
  db.filter (sqlWhere excludeIrrelevant indexAll)

/-- A sample indexed document, used to instantiate theorems. -/
def exampleDoc : Doc :=
  { question := "Как оформить возврат товара?"
    answer := "Возврат оформляется в течение 14 дней."
    direction := "розница"
    question_type := "процедура"
    keywords := "возврат, товар"
    id := some 7
    filename := "call_001.txt"
    call_date := "2024-01-15"
    call_time := "10:30" }

/-- A sample formatted evidence pair, used to instantiate theorems. -/
def examplePair : Pair := mkResult exampleDoc (17 / 20)

/-- Character-list match at the head: the first list read verbatim at the
start of the second. -/
def matchesAt : List Char → List Char → Bool
  | [], _ => true
  | _ :: _, [] => false
  | a :: as, b :: bs => a == b && matchesAt as bs

/-- Verbatim containment of one character list in another. -/
def hasSub (needle : List Char) : List Char → Bool
  | [] => matchesAt needle []
  | c :: t => matchesAt needle (c :: t) || hasSub needle t

/-- A sample technical detail of a connection-class failure (the `str(e)` of
the raised exception), carrying endpoint information. -/
def connErrText : String := "Connection error: host api.openai.com key sk-test-123"

/-- A sample database row that is not marked irrelevant and is audited. -/
def exampleRowKept : DbRow :=
  { id := 1, question := "q1", answer := "a1", direction := none,
    question_type := none, keywords := none, filename := "f1",
    dialog_id := none, call_direction := none, operator_phone := none,
    client_phone := none, call_date := none, call_time := none,
    is_irrelevant := none, is_audited := some 1 }

/-- A sample database row that is marked irrelevant. -/
def exampleRowDropped : DbRow :=
  { id := 2, question := "q2", answer := "a2", direction := none,
    question_type := none, keywords := none, filename := "f2",
    dialog_id := none, call_direction := none, operator_phone := none,
    client_phone := none, call_date := none, call_time := none,
    is_irrelevant := some 1, is_audited := some 1 }

/- Helper lemmas (shared). -/

lemma round_rat_mono {a b : ℚ} (h : a ≤ b) : round a ≤ round b := by
  rw [round_eq, round_eq]
  exact Int.floor_le_floor (by linarith)

lemma round4_mono {a b : ℚ} (h : a ≤ b) : round4 a ≤ round4 b := by
  unfold round4
  have h1 : round (a * 10000) ≤ round (b * 10000) := round_rat_mono (by linarith)
  have h2 : ((round (a * 10000) : ℤ) : ℚ) ≤ ((round (b * 10000) : ℤ) : ℚ) := by
    exact_mod_cast h1
  linarith

lemma round4_zero : round4 0 = 0 := by
  simp [round4]

lemma round4_one : round4 1 = 1 := by
  have h : ((1 : ℚ) * 10000) = ((10000 : ℤ) : ℚ) := by norm_num
  rw [round4, h, round_intCast]
  norm_num

lemma filterFormat_eq (rs : List Scored) :
    filterFormat rs =
      (rs.filter (fun r => decide (SIMILARITY_THRESHOLD ≤ 1 - r.score))).map
        (fun r => mkResult r.doc (1 - r.score)) := by
  induction rs with
  | nil => rfl
  | cons r rest ih =>
    by_cases h : SIMILARITY_THRESHOLD ≤ 1 - r.score
    · simp [filterFormat, List.filter_cons, h, ih]
    · simp [filterFormat, List.filter_cons, h, ih]

/-- C10: a falsy `k` (`0` as much as `None`) is replaced by the configured
top-K default, so `k=0` requests `TOP_K_RESULTS` candidates and behaves
exactly like omitting `k`. -/
theorem falsy_k_uses_default (vectorSearch : String → Nat → List Scored) (q : String) :
    searchSimilarPairs vectorSearch q (some 0) = searchSimilarPairs vectorSearch q none ∧
    effectiveK (some 0) = TOP_K_RESULTS ∧ effectiveK none = TOP_K_RESULTS :=
  ⟨rfl, rfl, rfl⟩

/-- C1: when `search_similar_pairs` finds no evidence, `answer_question`
(streaming and non-streaming alike, over any generative oracle) returns the
fixed no-relevant-information sentinel with `success = false` and empty
`source_pairs`, performs zero generative-client invocations, and raises no
exception (the `error` key is absent). -/
theorem no_evidence_terminal (vectorSearch : String → Nat → List Scored)
    (genAttempt : Nat → Except OpenAIErr String)
    (genStream : List (Except OpenAIErr String))
    (useStreaming : Option Bool) (q : String)
    (h : searchSimilarPairs vectorSearch q none = []) :
    answerQuestionFull vectorSearch genAttempt genStream useStreaming q =
      ({ success := false, answer := some NO_INFO_ANSWER, answer_stream := none,
         source_pairs := [], query := q, streaming := none, error := none }, 0) := by
  unfold answerQuestionFull
  rw [h]
  rfl

/-- C1 witness: a store whose only candidate has distance 3/2 (similarity
below the threshold) yields the no-evidence terminal result. -/
theorem no_evidence_terminal_witness :
    answerQuestionFull (fun _ _ => [⟨exampleDoc, 3 / 2⟩]) (fun _ => Except.ok "a")
        [] none "Сроки доставки" =
      ({ success := false, answer := some NO_INFO_ANSWER, answer_stream := none,
         source_pairs := [], query := "Сроки доставки", streaming := none,
         error := none }, 0) :=
  no_evidence_terminal _ _ _ _ _ (by
    norm_num [searchSimilarPairs, effectiveK, filterFormat, SIMILARITY_THRESHOLD])

/-- C3: `search_similar_pairs` converts each candidate's distance to
`similarity = 1 - distance` and keeps a candidate iff that similarity reaches
the configured threshold; every returned item is the formatted result of such
a candidate and carries the similarity rounded to 4 decimal places; when no
candidate clears the threshold the result is the empty list (the function is
total, so no error is raised). -/
theorem search_threshold_filter (vectorSearch : String → Nat → List Scored)
    (q : String) (k : Option Nat) :
    (searchSimilarPairs vectorSearch q k =
      ((vectorSearch q (effectiveK k)).filter
          (fun r => decide (SIMILARITY_THRESHOLD ≤ 1 - r.score))).map
        (fun r => mkResult r.doc (1 - r.score))) ∧
    (∀ p ∈ searchSimilarPairs vectorSearch q k, ∃ r ∈ vectorSearch q (effectiveK k),
        SIMILARITY_THRESHOLD ≤ 1 - r.score ∧ p = mkResult r.doc (1 - r.score) ∧
        p.similarity_score = round4 (1 - r.score)) ∧
    (∀ r ∈ vectorSearch q (effectiveK k), SIMILARITY_THRESHOLD ≤ 1 - r.score →
        mkResult r.doc (1 - r.score) ∈ searchSimilarPairs vectorSearch q k) ∧
    ((∀ r ∈ vectorSearch q (effectiveK k), 1 - r.score < SIMILARITY_THRESHOLD) →
        searchSimilarPairs vectorSearch q k = []) := by
  have base : searchSimilarPairs vectorSearch q k =
      ((vectorSearch q (effectiveK k)).filter
          (fun r => decide (SIMILARITY_THRESHOLD ≤ 1 - r.score))).map
        (fun r => mkResult r.doc (1 - r.score)) := filterFormat_eq _
  refine ⟨base, ?_, ?_, ?_⟩
  · intro p hp
    rw [base] at hp
    rcases List.mem_map.mp hp with ⟨r, hr, hpr⟩
    rcases List.mem_filter.mp hr with ⟨hrmem, hrthr⟩
    exact ⟨r, hrmem, of_decide_eq_true hrthr, hpr.symm, by rw [← hpr]; rfl⟩
  · intro r hr hthr
    rw [base]
    exact List.mem_map.mpr ⟨r, List.mem_filter.mpr ⟨hr, decide_eq_true hthr⟩, rfl⟩
  · intro hall
    rw [base]
    have : (vectorSearch q (effectiveK k)).filter
        (fun r => decide (SIMILARITY_THRESHOLD ≤ 1 - r.score)) = [] := by
      apply List.filter_eq_nil_iff.mpr
      intro r hr
      simp only [decide_eq_true_eq]
      exact not_le.mpr (hall r hr)
    rw [this]
    rfl

/-- C3 witness: with one candidate at distance 1/10 (similarity 9/10, kept)
and one at distance 3/2 (similarity below threshold, dropped), the output is
the single formatted surviving item; with all candidates below threshold the
output is empty. -/
theorem search_threshold_filter_witness :
    searchSimilarPairs (fun _ _ => [⟨exampleDoc, 1 / 10⟩, ⟨exampleDoc, 3 / 2⟩])
        "возврат" none =
      [mkResult exampleDoc (9 / 10)] ∧
    searchSimilarPairs (fun _ _ => [⟨exampleDoc, 3 / 2⟩]) "возврат" none = [] := by
  constructor
  · have h := (search_threshold_filter
      (fun _ _ => [⟨exampleDoc, 1 / 10⟩, ⟨exampleDoc, 3 / 2⟩]) "возврат" none).1
    rw [h]
    norm_num [List.filter_cons, List.filter_nil, SIMILARITY_THRESHOLD]
  · exact (search_threshold_filter (fun _ _ => [⟨exampleDoc, 3 / 2⟩]) "возврат" none).2.2.2
      (by norm_num [SIMILARITY_THRESHOLD])

/-- C4: the filtering loop preserves the candidate order, so when the vector
store returns its k-NN candidates in non-decreasing distance order (nearest
first, as a k-NN search does), the similarity scores carried by the output of
`search_similar_pairs` are non-increasing by index, i.e. the evidence is in
descending similarity order. -/
theorem search_results_sorted (vectorSearch : String → Nat → List Scored)
    (q : String) (k : Option Nat)
    (h : (vectorSearch q (effectiveK k)).Pairwise (fun a b => a.score ≤ b.score)) :
    ((searchSimilarPairs vectorSearch q k).map Pair.similarity_score).Pairwise
      (fun x y => y ≤ x) := by
  have base := filterFormat_eq (vectorSearch q (effectiveK k))
  show ((filterFormat (vectorSearch q (effectiveK k))).map Pair.similarity_score).Pairwise _
  rw [base, List.map_map]
  have hf : List.Sublist ((vectorSearch q (effectiveK k)).filter
      (fun r => decide (SIMILARITY_THRESHOLD ≤ 1 - r.score))) (vectorSearch q (effectiveK k)) :=
    List.filter_sublist _
  have hsorted := h.sublist hf
  rw [List.pairwise_map]
  refine hsorted.imp ?_
  intro a b hab
  show (Pair.similarity_score ∘ fun r => mkResult r.doc (1 - r.score)) b ≤
    (Pair.similarity_score ∘ fun r => mkResult r.doc (1 - r.score)) a
  simp only [Function.comp, mkResult]
  exact round4_mono (by linarith)

/-- C4 witness: two candidates at distances 1/10 and 2/10 (non-decreasing)
give output similarities in non-increasing order. -/
theorem search_results_sorted_witness :
    ((searchSimilarPairs (fun _ _ => [⟨exampleDoc, 1 / 10⟩, ⟨exampleDoc, 2 / 10⟩])
        "возврат" none).map Pair.similarity_score).Pairwise (fun x y => y ≤ x) :=
  search_results_sorted _ "возврат" none (by
    norm_num [List.pairwise_cons])

/-- C8: when the store's reported scores are non-negative (as a cosine
distance is), every evidence item returned by `search_similar_pairs` carries a
similarity score in the closed interval from 0 to 1: the threshold filter
bounds it below by the configured threshold (0) and `similarity = 1 - score`
bounds it above by 1, and rounding to 4 decimals preserves both bounds. -/
theorem similarity_in_unit_interval (vectorSearch : String → Nat → List Scored)
    (q : String) (k : Option Nat)
    (h : ∀ r ∈ vectorSearch q (effectiveK k), 0 ≤ r.score) :
    ∀ p ∈ searchSimilarPairs vectorSearch q k,
      0 ≤ p.similarity_score ∧ p.similarity_score ≤ 1 := by
  intro p hp
  rcases (search_threshold_filter vectorSearch q k).2.1 p hp with
    ⟨r, hrmem, hthr, _, hscore⟩
  have h0 : (0 : ℚ) ≤ 1 - r.score := hthr
  have h1 : 1 - r.score ≤ 1 := by
    have := h r hrmem
    linarith
  constructor
  · calc (0 : ℚ) = round4 0 := round4_zero.symm
      _ ≤ round4 (1 - r.score) := round4_mono h0
      _ = p.similarity_score := hscore.symm
  · calc p.similarity_score = round4 (1 - r.score) := hscore
      _ ≤ round4 1 := round4_mono h1
      _ = 1 := round4_one

/-- C8 witness: a candidate at distance 1/10 yields a similarity score within
the unit interval. -/
theorem similarity_in_unit_interval_witness :
    0 ≤ (mkResult exampleDoc (9 / 10)).similarity_score ∧
      (mkResult exampleDoc (9 / 10)).similarity_score ≤ 1 :=
  similarity_in_unit_interval (fun _ _ => [⟨exampleDoc, 1 / 10⟩]) "возврат" none
    (by norm_num) (mkResult exampleDoc (9 / 10))
    (by norm_num [searchSimilarPairs, effectiveK, filterFormat, SIMILARITY_THRESHOLD])

lemma contextParts_length (i : Nat) (ps : List Pair) :
    (contextParts i ps).length = ps.length := by
  induction ps generalizing i with
  | nil => rfl
  | cons p rest ih => simp [contextParts, ih]

lemma contextParts_getElem? (ps : List Pair) (i j : Nat) :
    (contextParts i ps)[j]? = (ps[j]?).map (fun p => blockOf (i + j) p) := by
  induction ps generalizing i j with
  | nil => simp [contextParts]
  | cons p rest ih =>
    cases j with
    | zero => simp [contextParts]
    | succ j =>
      simp only [contextParts, List.getElem?_cons_succ, ih (i + 1) j]
      have harith : i + 1 + j = i + (j + 1) := by omega
      rw [harith]

/-- C7: `format_context` on empty evidence returns the fixed non-empty
no-relevant-information sentinel; on non-empty evidence it is the
newline-joined sequence of blocks with exactly one block per item, the j-th
block being the item's numbered block (numbering from 1, showing the
similarity as a percentage and the question and answer text), in input order;
being a function, the serialization is deterministic. -/
theorem format_context_spec :
    (formatContext [] = NO_INFO_CONTEXT ∧ NO_INFO_CONTEXT ≠ "") ∧
    (∀ ps : List Pair, ps ≠ [] →
      formatContext ps = String.intercalate "\n" (contextParts 1 ps)) ∧
    (∀ ps : List Pair, (contextParts 1 ps).length = ps.length) ∧
    (∀ (ps : List Pair) (j : Nat),
      (contextParts 1 ps)[j]? = (ps[j]?).map (fun p => blockOf (1 + j) p)) := by
  refine ⟨⟨rfl, by decide⟩, ?_, fun ps => contextParts_length 1 ps,
    fun ps j => contextParts_getElem? ps 1 j⟩
  intro ps hps
  unfold formatContext
  rw [if_neg hps]

/-- C7 witness: the sentinel is non-empty and a singleton evidence list is
serialized as its single numbered block. -/
theorem format_context_spec_witness :
    (formatContext [] = NO_INFO_CONTEXT ∧ NO_INFO_CONTEXT ≠ "") ∧
    formatContext [examplePair] = String.intercalate "\n" (contextParts 1 [examplePair]) :=
  ⟨format_context_spec.1, format_context_spec.2.1 [examplePair] (by decide)⟩

/-- C2 counterexample: with a generative oracle that raises a rate-limit
error on the first two attempts and would succeed on the third,
`answer_question` returns `success = false` after a single invocation: the
claimed retry never happens in this code path. -/
theorem transient_retry_cex :
    ((answerQuestion (Except.ok [examplePair])
        (fun n => if n < 2 then Except.error (OpenAIErr.rateLimit "Rate limit exceeded")
          else Except.ok "Ответ сформирован")
        [] (some false) "вопрос").1.success = false) ∧
    ((answerQuestion (Except.ok [examplePair])
        (fun n => if n < 2 then Except.error (OpenAIErr.rateLimit "Rate limit exceeded")
          else Except.ok "Ответ сформирован")
        [] (some false) "вопрос").2 = 1) :=
  ⟨rfl, rfl⟩

/-- C2 amended: the generative call issued by `answer_question` is never
retried: whatever error the first attempt raises — transient (rate limit,
connection, timeout) and authentication alike — exactly one invocation is
performed and the failure is surfaced immediately as `success = false` with
the error detail attached (bounded exponential-backoff retry exists only in
`OpenAIClient._make_request` of the extraction pipeline, not in this path). -/
theorem gen_failure_not_retried (p : Pair) (ps : List Pair)
    (genAttempt : Nat → Except OpenAIErr String)
    (genStream : List (Except OpenAIErr String)) (q : String) (e : OpenAIErr)
    (h : genAttempt 0 = Except.error e) :
    (answerQuestion (Except.ok (p :: ps)) genAttempt genStream (some false) q).1 =
      { success := false, answer := some (politeMsg e), answer_stream := none,
        source_pairs := [], query := q, streaming := none, error := some e.text } ∧
    (answerQuestion (Except.ok (p :: ps)) genAttempt genStream (some false) q).2 = 1 := by
  unfold answerQuestion
  simp [h, Option.getD]

/-- C2 amended witness: a rate-limit failure of the first attempt surfaces at
once, after exactly one invocation. -/
theorem gen_failure_not_retried_witness :
    (answerQuestion (Except.ok [examplePair])
        (fun _ => Except.error (OpenAIErr.rateLimit "Rate limit exceeded"))
        [] (some false) "вопрос").1 =
      { success := false,
        answer := some (politeMsg (OpenAIErr.rateLimit "Rate limit exceeded")),
        answer_stream := none, source_pairs := [], query := "вопрос",
        streaming := none,
        error := some (OpenAIErr.rateLimit "Rate limit exceeded").text } ∧
    (answerQuestion (Except.ok [examplePair])
        (fun _ => Except.error (OpenAIErr.rateLimit "Rate limit exceeded"))
        [] (some false) "вопрос").2 = 1 :=
  gen_failure_not_retried examplePair [] _ [] "вопрос" _ rfl

/-- C6 counterexample: for a connection-class failure of the generative call,
the user-facing answer returned by `answer_question` contains the raw
exception text verbatim (after a polite prefix), contradicting the claim that
the technical detail is never exposed. -/
theorem error_detail_exposed_cex :
    ((answerQuestion (Except.ok [examplePair])
        (fun _ => Except.error (OpenAIErr.connection connErrText))
        [] (some false) "вопрос").1.answer =
      some ("Произошла ошибка при обработке запроса: " ++ connErrText)) ∧
    hasSub connErrText.toList
      (((answerQuestion (Except.ok [examplePair])
          (fun _ => Except.error (OpenAIErr.connection connErrText))
          [] (some false) "вопрос").1.answer).getD "").toList = true :=
  ⟨rfl, by decide⟩

/-- C6 amended: on a failure of the generative call, the user-facing answer is
the polite prefix followed verbatim by `str(e)`, for every error class
(authentication and connection included); the same detail is returned in the
`error` field. -/
theorem error_detail_in_answer (p : Pair) (ps : List Pair)
    (genAttempt : Nat → Except OpenAIErr String)
    (genStream : List (Except OpenAIErr String)) (q : String) (e : OpenAIErr)
    (h : genAttempt 0 = Except.error e) :
    (answerQuestion (Except.ok (p :: ps)) genAttempt genStream (some false) q).1.answer =
      some ("Произошла ошибка при обработке запроса: " ++ e.text) ∧
    (answerQuestion (Except.ok (p :: ps)) genAttempt genStream (some false) q).1.error =
      some e.text := by
  unfold answerQuestion
  simp [h, Option.getD, politeMsg]

/-- C6 amended witness: an authentication failure's detail appears verbatim in
the returned answer and error fields. -/
theorem error_detail_in_answer_witness :
    (answerQuestion (Except.ok [examplePair])
        (fun _ => Except.error (OpenAIErr.authentication "Invalid API key sk-test-123"))
        [] (some false) "вопрос").1.answer =
      some ("Произошла ошибка при обработке запроса: " ++
        (OpenAIErr.authentication "Invalid API key sk-test-123").text) ∧
    (answerQuestion (Except.ok [examplePair])
        (fun _ => Except.error (OpenAIErr.authentication "Invalid API key sk-test-123"))
        [] (some false) "вопрос").1.error =
      some (OpenAIErr.authentication "Invalid API key sk-test-123").text :=
  error_detail_in_answer examplePair [] _ [] "вопрос" _ rfl

lemma streamChunkEvents_ok : ∀ oks : List String,
    streamChunkEvents (oks.map Except.ok) =
      oks.map SSEEvent.answerChunk ++ [SSEEvent.answerEnd, SSEEvent.done]
  | [] => rfl
  | c :: rest => by
    simp only [List.map_cons, streamChunkEvents, streamChunkEvents_ok rest, List.cons_append]

lemma streamChunkEvents_abort (e : OpenAIErr) (rest : List (Except OpenAIErr String)) :
    ∀ oks : List String,
      streamChunkEvents (oks.map Except.ok ++ Except.error e :: rest) =
        oks.map SSEEvent.answerChunk
  | [] => rfl
  | c :: oks => by
    simp only [List.map_cons, List.cons_append, streamChunkEvents, List.append_eq,
      streamChunkEvents_abort e rest oks]

/-- C5 counterexample: when producing the second fragment of the generation
stream fails, the event sequence of `/api/ask_stream` ends right after the
fragments already produced — the final DONE sentinel is not emitted (nor is
an error event), refuting the claim that the sentinel terminates the sequence
unconditionally. -/
theorem sse_done_not_unconditional_cex :
    (sseGenerate (answerQuestion (Except.ok [examplePair]) (fun _ => Except.ok "x")
        [Except.ok "Пер", Except.error (OpenAIErr.connection "Connection error")]
        (some true) "вопрос").1 =
      [SSEEvent.sources [examplePair], SSEEvent.answerStart, SSEEvent.answerChunk "Пер"]) ∧
    SSEEvent.done ∉
      sseGenerate (answerQuestion (Except.ok [examplePair]) (fun _ => Except.ok "x")
        [Except.ok "Пер", Except.error (OpenAIErr.connection "Connection error")]
        (some true) "вопрос").1 := by
  refine ⟨rfl, ?_⟩
  intro hmem
  rw [show sseGenerate (answerQuestion (Except.ok [examplePair]) (fun _ => Except.ok "x")
        [Except.ok "Пер", Except.error (OpenAIErr.connection "Connection error")]
        (some true) "вопрос").1 =
      [SSEEvent.sources [examplePair], SSEEvent.answerStart, SSEEvent.answerChunk "Пер"]
    from rfl] at hmem
  simp at hmem

/-- C5 amended: the `/api/ask_stream` event sequence is the optional `sources`
event, then on success `answer_start`, the `answer_chunk` events in stream
order, `answer_end` and the final DONE sentinel; on an up-front failure a
single `error` event followed by the sentinel; but when a fragment production
fails partway through, the sequence is truncated right after the chunks
already emitted, with neither an error event nor the sentinel (the exception
propagates out of the generator). -/
theorem sse_event_order (p : Pair) (ps : List Pair) (oks : List String) (e : OpenAIErr)
    (rest : List (Except OpenAIErr String))
    (genAttempt : Nat → Except OpenAIErr String) (q : String) :
    (sseGenerate (answerQuestion (Except.ok (p :: ps)) genAttempt
        (oks.map Except.ok) (some true) q).1 =
      SSEEvent.sources (p :: ps) :: SSEEvent.answerStart ::
        (oks.map SSEEvent.answerChunk ++ [SSEEvent.answerEnd, SSEEvent.done])) ∧
    (sseGenerate (answerQuestion (Except.ok []) genAttempt
        (oks.map Except.ok) (some true) q).1 =
      [SSEEvent.errorEv NO_INFO_ANSWER, SSEEvent.done]) ∧
    (sseGenerate (answerQuestion (Except.ok (p :: ps)) genAttempt
        (oks.map Except.ok ++ Except.error e :: rest) (some true) q).1 =
      SSEEvent.sources (p :: ps) :: SSEEvent.answerStart ::
        oks.map SSEEvent.answerChunk) := by
  refine ⟨?_, ?_, ?_⟩ <;>
    simp [answerQuestion, sseGenerate, SHOW_SOURCE_PAIRS, ENABLE_STREAMING,
      streamChunkEvents_ok, streamChunkEvents_abort, streamChunkEvents]

/-- C9: a row is selected by the indexer's query iff it is in the table, is
not marked irrelevant when irrelevant rows are excluded (a NULL flag counting
as not marked), and — when only audited rows are indexed — its audited flag
is set; with `INDEX_ALL_PAIRS` true the audited flag is ignored. The
`is_irrelevant` column is assumed to hold only the flag values NULL, 0, 1. -/
theorem indexer_eligibility (excl indexAll : Bool) (db : List DbRow) (r : DbRow)
    (hwf : ∀ s ∈ db, s.is_irrelevant = none ∨ s.is_irrelevant = some 0 ∨
      s.is_irrelevant = some 1) :
    r ∈ selectRows excl indexAll db ↔
      r ∈ db ∧ (excl = true → r.is_irrelevant ≠ some 1) ∧
        (indexAll = false → r.is_audited = some 1) := by
  unfold selectRows sqlWhere
  rw [List.mem_filter]
  constructor
  · rintro ⟨hmem, hcond⟩
    refine ⟨hmem, ?_, ?_⟩
    · intro hexcl hirr
      rw [hexcl] at hcond
      simp [hirr] at hcond
    · intro hall
      rw [hall] at hcond
      simp at hcond
      rcases hcond with ⟨-, haud⟩
      exact haud
  · rintro ⟨hmem, hirr, haud⟩
    refine ⟨hmem, ?_⟩
    cases excl with
    | false =>
      cases indexAll with
      | false => simp [haud rfl]
      | true => simp
    | true =>
      have hnot1 : r.is_irrelevant ≠ some 1 := hirr rfl
      have hval : r.is_irrelevant = none ∨ r.is_irrelevant = some 0 := by
        rcases hwf r hmem with h1 | h1 | h1
        · exact Or.inl h1
        · exact Or.inr h1
        · exact absurd h1 hnot1
      cases indexAll with
      | false =>
        rcases hval with h1 | h1 <;> simp [h1, haud rfl]
      | true =>
        rcases hval with h1 | h1 <;> simp [h1]

/-- C9 witness: with irrelevant rows excluded and audited-only indexing, the
audited non-irrelevant row is selected from a table also holding an
irrelevant row. -/
theorem indexer_eligibility_witness :
    exampleRowKept ∈ selectRows true false [exampleRowDropped, exampleRowKept] :=
  (indexer_eligibility true false [exampleRowDropped, exampleRowKept] exampleRowKept
    (by decide)).mpr (by decide)

end QA2
